import Mathlib

/-!
Shallow embedding of the timseye/AirQualitySystem repository: the ETL
normalization pipeline (archive/etl_scripts/normalize_data.py), the
incremental live-feed ingestion command
(backend/application/management/commands/fetch_latest_data.py), the CAMS
reprocessing command
(backend/application/management/commands/reprocess_cams.py) and the AQI
helper of the query layer (backend/application/api/data_views.py).

Numbers are modelled as exact rationals; nullable SQL/pandas values as
`Option`; dataframe/table rows as Lean structures; table contents as lists
of rows.
-/

namespace AirQuality

/-! ### Rounding helpers

`ratFloor` is the floor of a rational, computed by flooring integer
division (every `Rat` has a positive denominator).  `pyRound` is Python 3
`round` (round half to even).  `round2` is Postgres `ROUND(x, 2)` for the
non-negative numerics it is applied to here (round half up at the second
decimal). -/

def ratFloor (q : ℚ) : ℤ := Int.fdiv q.num q.den

def pyRound (q : ℚ) : ℤ :=
  let f := ratFloor q
  let r := q - (f : ℚ)
  if r < 1/2 then f
  else if 1/2 < r then f + 1
  else if f % 2 = 0 then f else f + 1

def round2 (q : ℚ) : ℚ := ((ratFloor (q * 100 + 1/2) : ℚ)) / 100

/-! ### AQI computation (data_views.py, `calculate_aqi`) -/

/-- The EPA breakpoint table of `calculate_aqi`:
`(conc_low, conc_high, index_low, index_high)` per band. -/
def breakpoints : List (ℚ × ℚ × ℤ × ℤ) :=
  [(0, 12, 0, 50),
   (121/10, 354/10, 51, 100),
   (355/10, 554/10, 101, 150),
   (555/10, 1504/10, 151, 200),
   (1505/10, 2504/10, 201, 300),
   (2505/10, 5004/10, 301, 500)]

/-- The `for bp_lo, bp_hi, i_lo, i_hi in breakpoints: if bp_lo <= pm25 <= bp_hi`
loop: first band containing the value, if any. -/
def findBand (v : ℚ) : List (ℚ × ℚ × ℤ × ℤ) → Option (ℚ × ℚ × ℤ × ℤ)
  | [] => none
  | b :: rest => if b.1 ≤ v ∧ v ≤ b.2.1 then some b else findBand v rest

/-- `round(((i_hi - i_lo) / (bp_hi - bp_lo)) * (pm25 - bp_lo) + i_lo)`. -/
def bandIndex (b : ℚ × ℚ × ℤ × ℤ) (v : ℚ) : ℤ :=
  pyRound ((((b.2.2.2 : ℚ) - (b.2.2.1 : ℚ)) / (b.2.1 - b.1)) * (v - b.1) + (b.2.2.1 : ℚ))

/-- `calculate_aqi` from data_views.py: `None` passes through; a value in a
band is interpolated and rounded; otherwise `500 if pm25 > 500.4 else 0`. -/
def calculate_aqi (pm25 : Option ℚ) : Option ℤ :=
  match pm25 with
  | none => none
  | some v =>
    match findBand v breakpoints with
    | some b => some (bandIndex b v)
    | none => some (if v > 5004/10 then 500 else 0)

/-! ### CAMS unit conversion (reprocess_cams.py, `process_file`) -/

/-- The `param_map` dict of `Command.process_file`: CAMS variable name to
(database column, conversion factor), kg/m3 to ug/m3 (1e9) or mg/m3
(1e6 for CO). -/
def param_map : String → Option (String × ℚ) := fun c =>
  if c = "pm2p5" then some ("pm25", 1000000000)
  else if c = "pm10" then some ("pm10", 1000000000)
  else if c = "nitrogen_dioxide" then some ("no2", 1000000000)
  else if c = "no2" then some ("no2", 1000000000)
  else if c = "ozone" then some ("o3", 1000000000)
  else if c = "go3" then some ("o3", 1000000000)
  else if c = "sulphur_dioxide" then some ("so2", 1000000000)
  else if c = "so2" then some ("so2", 1000000000)
  else if c = "carbon_monoxide" then some ("co", 1000000)
  else if c = "co" then some ("co", 1000000)
  else none

/-- `val = row[cams_col] * factor` in `process_file`. -/
def camsConvert (raw factor : ℚ) : ℚ := raw * factor

/-! ### Timestamps

UTC instants at minute resolution.  Calendar-derived data that the Python
`datetime` / Postgres date libraries compute (the weekday) is carried as a
field rather than recomputed from first principles; no claim depends on the
calendar itself. -/

structure Timestamp where
  year : Nat
  month : Nat
  day : Nat
  hour : Nat
  minute : Nat
  /-- Python `datetime.weekday()`: 0 = Monday .. 6 = Sunday. -/
  pyWeekday : Nat
deriving DecidableEq, Repr

/-- `DATE_TRUNC('hour', ts)`. -/
def hourTrunc (t : Timestamp) : Timestamp := { t with minute := 0 }

/-- Postgres `EXTRACT(DOW FROM ts)`: 0 = Sunday .. 6 = Saturday. -/
def pgDow (t : Timestamp) : Nat := (t.pyWeekday + 1) % 7

/-- Chronological comparison of timestamps (lexicographic on the calendar
fields), used to model `ORDER BY timestamp_utc` / `sort_values`. -/
def tsLe (a b : Timestamp) : Prop :=
  a.year < b.year ∨ (a.year = b.year ∧
    (a.month < b.month ∨ (a.month = b.month ∧
      (a.day < b.day ∨ (a.day = b.day ∧
        (a.hour < b.hour ∨ (a.hour = b.hour ∧ a.minute ≤ b.minute)))))))

instance : DecidableRel tsLe := fun a b => by unfold tsLe; infer_instance

/-! ### The `unified_data` table (one row = one HourlyRecord) -/

/-- A row of `unified_data`, with the columns touched by
`normalize_data.create_unified_data`, `fetch_latest_data` and
`reprocess_cams`. -/
structure URow where
  timestamp_utc : Timestamp
  location : String
  pm25 : Option ℚ
  pm10 : Option ℚ
  no2 : Option ℚ
  o3 : Option ℚ
  so2 : Option ℚ
  co : Option ℚ
  temperature_c : Option ℚ
  humidity_pct : Option ℚ
  pressure_hpa : Option ℚ
  wind_speed_ms : Option ℚ
  wind_direction_deg : Option ℚ
  precipitation_mm : Option ℚ
  cloud_cover_pct : Option ℚ
  hour : Nat
  day_of_week : Nat
  day_of_month : Nat
  month : Nat
  season : String
  is_weekend : Bool
  is_heating_season : Bool
  pm25_source : Option String
  weather_source : Option String
  completeness_score : ℚ
deriving DecidableEq, Repr

/-- The (hour, location) key of the spec's HourlyRecord invariant. -/
def hourKey (u : URow) : Timestamp × String := (hourTrunc u.timestamp_utc, u.location)

/-! ### Incremental live ingestion (fetch_latest_data.py, `Command.handle`) -/

/-- The values extracted from one AQICN reading (`iaqi.get(...).get('v')`);
absent keys give `None`. -/
structure Reading where
  ts : Timestamp
  pm25 : Option ℚ
  pm10 : Option ℚ
  no2 : Option ℚ
  so2 : Option ℚ
  o3 : Option ℚ
  co : Option ℚ
  temp : Option ℚ
  humi : Option ℚ
  wind : Option ℚ
  press : Option ℚ
deriving DecidableEq, Repr

/-- `month in [10, 11, 12, 1, 2, 3, 4]`. -/
def isHeatingMonth (m : Nat) : Bool :=
  m == 10 || m == 11 || m == 12 || m == 1 || m == 2 || m == 3 || m == 4

/-- The season chain of `fetch_latest_data` (default winter, then
spring/summer/autumn by month). -/
def pySeason (m : Nat) : String :=
  if m = 3 ∨ m = 4 ∨ m = 5 then "spring"
  else if m = 6 ∨ m = 7 ∨ m = 8 then "summer"
  else if m = 9 ∨ m = 10 ∨ m = 11 then "autumn"
  else "winter"

/-- The `UPDATE unified_data SET ... WHERE id = %s` branch: every listed
column is set from the reading (nulls included) and both source columns
become 'aqicn'; all other columns keep their values. -/
def liveUpdateRow (r : Reading) (u : URow) : URow :=
  { u with
    pm25 := r.pm25, pm10 := r.pm10, no2 := r.no2, o3 := r.o3, so2 := r.so2, co := r.co,
    temperature_c := r.temp, humidity_pct := r.humi,
    pressure_hpa := r.press, wind_speed_ms := r.wind,
    pm25_source := some "aqicn", weather_source := some "aqicn" }

/-- The `INSERT INTO unified_data (...)` branch: supplied fields from the
reading, fixed location 'Astana', temporal features from `dt_utc`, both
sources 'aqicn' and `completeness_score` the literal 1.0. -/
def liveInsertRow (r : Reading) : URow :=
  { timestamp_utc := r.ts, location := "Astana",
    pm25 := r.pm25, pm10 := r.pm10, no2 := r.no2, o3 := r.o3, so2 := r.so2, co := r.co,
    temperature_c := r.temp, humidity_pct := r.humi,
    pressure_hpa := r.press, wind_speed_ms := r.wind,
    wind_direction_deg := none, precipitation_mm := none, cloud_cover_pct := none,
    hour := r.ts.hour, day_of_week := r.ts.pyWeekday, day_of_month := r.ts.day,
    month := r.ts.month, season := pySeason r.ts.month,
    is_weekend := decide (5 ≤ r.ts.pyWeekday),
    is_heating_season := isHeatingMonth r.ts.month,
    pm25_source := some "aqicn", weather_source := some "aqicn",
    completeness_score := 1 }

/-- `SELECT id FROM unified_data WHERE timestamp_utc = %s` then `UPDATE ...
WHERE id = %s`: the first row whose timestamp equals the reading's (exact,
not hour-truncated) timestamp is replaced. -/
def updateFirstTs (r : Reading) : List URow → List URow
  | [] => []
  | u :: rest =>
    if u.timestamp_utc = r.ts then liveUpdateRow r u :: rest
    else u :: updateFirstTs r rest

/-- The whole DB effect of `Command.handle`: update the matching row if one
exists, otherwise insert a fresh row. -/
def fetchLatestUpsert (db : List URow) (r : Reading) : List URow :=
  if db.any (fun u => decide (u.timestamp_utc = r.ts)) then updateFirstTs r db
  else db ++ [liveInsertRow r]

/-! ### CAMS reprocessing merge (reprocess_cams.py, `bulk_update_db`) -/

/-- One row of the `temp_cams_updates` table. -/
structure CamsUpdate where
  timestamp_utc : Timestamp
  pm25 : Option ℚ
  pm10 : Option ℚ
  no2 : Option ℚ
  o3 : Option ℚ
  so2 : Option ℚ
  co : Option ℚ
deriving DecidableEq, Repr

/-- The per-row effect of the bulk `UPDATE unified_data u SET ... FROM
temp_cams_updates t`: each pollutant is overwritten by the CAMS value only
when the CAMS value is non-null and the current value is null, zero, or
pm25-sourced from 'cams'; `pm25_source` becomes 'cams' exactly when pm25 is
overwritten.  (Faithfully to the SQL, every column's condition reads
`u.pm25_source`.) -/
def camsMergeRow (t : CamsUpdate) (u : URow) : URow :=
  { u with
    pm25 := if t.pm25 ≠ none ∧ (u.pm25_source = some "cams" ∨ u.pm25 = none ∨ u.pm25 = some 0)
            then t.pm25 else u.pm25,
    pm10 := if t.pm10 ≠ none ∧ (u.pm10 = some 0 ∨ u.pm10 = none ∨ u.pm25_source = some "cams")
            then t.pm10 else u.pm10,
    no2 := if t.no2 ≠ none ∧ (u.no2 = some 0 ∨ u.no2 = none ∨ u.pm25_source = some "cams")
           then t.no2 else u.no2,
    o3 := if t.o3 ≠ none ∧ (u.o3 = some 0 ∨ u.o3 = none ∨ u.pm25_source = some "cams")
          then t.o3 else u.o3,
    so2 := if t.so2 ≠ none ∧ (u.so2 = some 0 ∨ u.so2 = none ∨ u.pm25_source = some "cams")
           then t.so2 else u.so2,
    co := if t.co ≠ none ∧ (u.co = some 0 ∨ u.co = none ∨ u.pm25_source = some "cams")
          then t.co else u.co,
    pm25_source := if t.pm25 ≠ none ∧ (u.pm25_source = some "cams" ∨ u.pm25 = none ∨ u.pm25 = some 0)
                   then some "cams" else u.pm25_source }

/-- The `WHERE u.timestamp_utc = t.timestamp_utc` join: one temp-table row
updates every unified row with the same timestamp. -/
def camsBulkUpdate (db : List URow) (t : CamsUpdate) : List URow :=
  db.map (fun u => if u.timestamp_utc = t.timestamp_utc then camsMergeRow t u else u)

/-! ### Completeness score (normalize_data.py, `create_unified_data` SQL) -/

/-- The `completeness_score` expression of the unified-data SQL:
`ROUND((CASE WHEN pm25 ... 0.3 ... pm10 ... 0.1 END)::numeric, 2)`. -/
def completenessScore (pm25 temperature humidity wind pressure pm10 : Option ℚ) : ℚ :=
  round2 ((if pm25.isSome then (3 : ℚ)/10 else 0) +
          (if temperature.isSome then (2 : ℚ)/10 else 0) +
          (if humidity.isSome then (15 : ℚ)/100 else 0) +
          (if wind.isSome then (15 : ℚ)/100 else 0) +
          (if pressure.isSome then (1 : ℚ)/10 else 0) +
          (if pm10.isSome then (1 : ℚ)/10 else 0))

/-! ### The `measurements` table and per-source transforms
(archive/etl_scripts/normalize_data.py) -/

/-- A row of the `measurements` table. -/
structure Obs where
  timestamp_utc : Timestamp
  location : String
  latitude : ℚ
  longitude : ℚ
  parameter : String
  value : Option ℚ
  unit : String
  data_source : String
  data_quality : String
deriving DecidableEq, Repr

/-- The deduplication key of `drop_duplicates(subset=['timestamp_utc',
'location', 'parameter', 'data_source'])`. -/
def obsKey (o : Obs) : Timestamp × String × String × String :=
  (o.timestamp_utc, o.location, o.parameter, o.data_source)

/-- `str.lower()` on ASCII parameter names. -/
def strLower (s : String) : String := ⟨s.data.map Char.toLower⟩

/-- pandas `drop_duplicates(keep='first')`: keep each key's first occurrence
in list order, tracking the set of keys already seen. -/
def dedupByFirstAux {α κ : Type} [DecidableEq κ] (key : α → κ) : List κ → List α → List α
  | _, [] => []
  | seen, a :: rest =>
    if key a ∈ seen then dedupByFirstAux key seen rest
    else a :: dedupByFirstAux key (key a :: seen) rest

def dedupByFirst {α κ : Type} [DecidableEq κ] (key : α → κ) (l : List α) : List α :=
  dedupByFirstAux key [] l

/-- `df.dropna(subset=['value'])` followed by `df[df['value'] >= 0]`. -/
def validValue : Option ℚ → Bool
  | none => false
  | some v => decide (0 ≤ v)

/-- The per-file standardization of `transform_openaq`: fixed location and
coordinates, source tag, lower-cased parameter. -/
def openaqStandardize (o : Obs) : Obs :=
  { o with location := "Astana", latitude := mkRat 511694 10000,
           longitude := mkRat 714491 10000,
           data_source := "openaq", parameter := strLower o.parameter }

def obsLe (a b : Obs) : Prop := tsLe a.timestamp_utc b.timestamp_utc

instance : DecidableRel obsLe := fun a b => by unfold obsLe; infer_instance

/-- `transform_openaq` (the dataframe part): standardize, drop invalid
values, drop duplicate keys keeping the first occurrence, then sort by
timestamp.  NOTE the code's order: deduplication happens BEFORE the sort. -/
def transform_openaq (rows : List Obs) : List Obs :=
  List.insertionSort obsLe
    (dedupByFirst obsKey ((rows.map openaqStandardize).filter (fun o => validValue o.value)))

/-- One melted CAMS grid row (one grid point, one timestep, one raw
pollutant column). -/
structure CamsRaw where
  timestamp_utc : Timestamp
  latitude : ℚ
  longitude : ℚ
  param : String
  value : Option ℚ
deriving DecidableEq, Repr

/-- The `param_map` rename of `transform_cams` (`replace` leaves unknown
names unchanged). -/
def camsRename (s : String) : String :=
  if s = "pm2p5" then "pm25"
  else if s = "nitrogen_dioxide" then "no2"
  else if s = "ozone" then "o3"
  else if s = "sulphur_dioxide" then "so2"
  else if s = "carbon_monoxide" then "co"
  else s

/-- Standardization and `dropna(subset=['value'])` of `transform_cams`:
fixed unit string 'kg/m³' (no numeric conversion here), fixed source and
quality tags. -/
def camsToObs (r : CamsRaw) : Option Obs :=
  match r.value with
  | none => none
  | some v =>
    some { timestamp_utc := r.timestamp_utc, location := "Astana",
           latitude := r.latitude, longitude := r.longitude,
           parameter := camsRename r.param, value := some v, unit := "kg/m³",
           data_source := "cams", data_quality := "reanalysis" }

/-- Arithmetic mean of a list of rationals. -/
def ratMean (xs : List ℚ) : ℚ := xs.sum / (xs.length : ℚ)

/-- The aggregated record of one `groupby` group of `transform_cams`:
`value`/`latitude`/`longitude` averaged ('mean'), `unit`/`data_quality`
taken from the FIRST member of the group ('first'). -/
def camsAggBuild (l : List Obs) (k : Timestamp × String × String × String) : Obs :=
  let g := l.filter (fun o => decide (obsKey o = k))
  { timestamp_utc := k.1, location := k.2.1, parameter := k.2.2.1, data_source := k.2.2.2,
    value := some (ratMean (g.filterMap (·.value))),
    latitude := ratMean (g.map (·.latitude)),
    longitude := ratMean (g.map (·.longitude)),
    unit := ((g.head?).map (·.unit)).getD "",
    data_quality := ((g.head?).map (·.data_quality)).getD "" }

/-- The `groupby(['timestamp_utc', 'location', 'parameter',
'data_source']).agg(...)` of `transform_cams`: one output row per occurring
key, never dropping a group. -/
def camsAggregate (l : List Obs) : List Obs :=
  (dedupByFirst id (l.map obsKey)).map (camsAggBuild l)

/-- `transform_cams` (dataframe part): melt rows to Obs, aggregate grid
points per key, overwrite the coordinates with the fixed Astana point, drop
duplicates (a no-op after aggregation, kept for fidelity) and sort. -/
def transform_cams (rows : List CamsRaw) : List Obs :=
  let df := rows.filterMap camsToObs
  let agg := (camsAggregate df).map (fun o =>
    { o with latitude := mkRat 511694 10000, longitude := mkRat 714491 10000 })
  List.insertionSort obsLe (dedupByFirst obsKey agg)

/-! ### The `weather` table and `transform_weather` -/

/-- A raw Open-Meteo CSV row (after the column renames). -/
structure WeatherRaw where
  timestamp_local : Timestamp
  temperature_c : Option ℚ
  humidity_pct : Option ℚ
  precipitation_mm : Option ℚ
  surface_pressure_hpa : Option ℚ
  wind_speed_ms : Option ℚ
  wind_direction_deg : Option ℚ
  cloud_cover_pct : Option ℚ
deriving DecidableEq, Repr

/-- A row of the `weather` table. -/
structure WRow where
  timestamp_utc : Timestamp
  location : String
  temperature_c : Option ℚ
  humidity_pct : Option ℚ
  precipitation_mm : Option ℚ
  surface_pressure_hpa : Option ℚ
  wind_speed_ms : Option ℚ
  wind_direction_deg : Option ℚ
  cloud_cover_pct : Option ℚ
  data_source : String
deriving DecidableEq, Repr

def isLeap (y : Nat) : Bool := y % 4 == 0 && (y % 100 != 0 || y % 400 == 0)

def daysInMonth (y m : Nat) : Nat :=
  if m = 2 then (if isLeap y then 29 else 28)
  else if m = 4 ∨ m = 6 ∨ m = 9 ∨ m = 11 then 30
  else 31

/-- `pd.to_datetime(...) - pd.Timedelta(hours=6)` (Astana is UTC+6):
calendar subtraction of six hours. -/
def subHours6 (t : Timestamp) : Timestamp :=
  if 6 ≤ t.hour then { t with hour := t.hour - 6 }
  else
    let h := t.hour + 24 - 6
    let w := (t.pyWeekday + 6) % 7
    if 1 < t.day then { t with day := t.day - 1, hour := h, pyWeekday := w }
    else if 1 < t.month then
      { t with month := t.month - 1, day := daysInMonth t.year (t.month - 1),
               hour := h, pyWeekday := w }
    else { t with year := t.year - 1, month := 12, day := 31, hour := h, pyWeekday := w }

def wKey (w : WRow) : Timestamp × String × String :=
  (w.timestamp_utc, w.location, w.data_source)

def wLe (a b : WRow) : Prop := tsLe a.timestamp_utc b.timestamp_utc

instance : DecidableRel wLe := fun a b => by unfold wLe; infer_instance

/-- `transform_weather` (dataframe part): shift the local timestamp to UTC,
fix location and source tag, drop duplicate (timestamp, location, source)
keys keeping the first occurrence, sort by timestamp. -/
def transform_weather (rows : List WeatherRaw) : List WRow :=
  let mapped : List WRow := rows.map (fun r =>
    { timestamp_utc := subHours6 r.timestamp_local, location := "Astana",
      temperature_c := r.temperature_c, humidity_pct := r.humidity_pct,
      precipitation_mm := r.precipitation_mm,
      surface_pressure_hpa := r.surface_pressure_hpa,
      wind_speed_ms := r.wind_speed_ms, wind_direction_deg := r.wind_direction_deg,
      cloud_cover_pct := r.cloud_cover_pct, data_source := "open-meteo" })
  List.insertionSort wLe (dedupByFirst wKey mapped)

/-! ### The unified-data join (normalize_data.py, `create_unified_data` SQL) -/

/-- SQL `AVG` over a group of nullable values: nulls are skipped; all-null
gives NULL. -/
def avgOpt (xs : List (Option ℚ)) : Option ℚ :=
  let v := xs.filterMap id
  if v.isEmpty then none else some (v.sum / (v.length : ℚ))

/-- SQL `MAX` over a group of strings. -/
def strMaxAgg (xs : List String) : Option String :=
  xs.foldl (fun acc s =>
    match acc with
    | none => some s
    | some m => some (if (compare m s).isLT then s else m)) none

/-- SQL `MAX` over a group of rationals. -/
def maxQAgg (xs : List ℚ) : Option ℚ :=
  xs.foldl (fun acc v =>
    match acc with
    | none => some v
    | some m => some (max m v)) none

/-- A row of the `hourly_measurements` CTE. -/
structure HMRow where
  timestamp_utc : Timestamp
  location : String
  parameter : String
  value : Option ℚ
  data_source : Option String
deriving DecidableEq, Repr

def hourlyMeasurements (meas : List Obs) : List HMRow :=
  let src := meas.filter (fun o => decide (o.location = "Astana"))
  (dedupByFirst id (src.map (fun o => (hourTrunc o.timestamp_utc, o.location, o.parameter)))).map
    (fun k =>
      let g := src.filter (fun o =>
        decide ((hourTrunc o.timestamp_utc, o.location, o.parameter) = k))
      { timestamp_utc := k.1, location := k.2.1, parameter := k.2.2,
        value := avgOpt (g.map (·.value)),
        data_source := strMaxAgg (g.map (·.data_source)) })

/-- A row of the `pivoted_measurements` CTE. -/
structure PivotRow where
  timestamp_utc : Timestamp
  location : String
  pm25 : Option ℚ
  pm10 : Option ℚ
  no2 : Option ℚ
  o3 : Option ℚ
  so2 : Option ℚ
  co : Option ℚ
  pm25_source : Option String
deriving DecidableEq, Repr

/-- `MAX(CASE WHEN parameter = p THEN value END)` within a group. -/
def pivotValue (g : List HMRow) (p : String) : Option ℚ :=
  maxQAgg ((g.filter (fun h => decide (h.parameter = p))).filterMap (·.value))

def pivotedMeasurements (hm : List HMRow) : List PivotRow :=
  (dedupByFirst id (hm.map (fun h => (h.timestamp_utc, h.location)))).map (fun k =>
    let g := hm.filter (fun h => decide ((h.timestamp_utc, h.location) = k))
    { timestamp_utc := k.1, location := k.2,
      pm25 := pivotValue g "pm25", pm10 := pivotValue g "pm10", no2 := pivotValue g "no2",
      o3 := pivotValue g "o3", so2 := pivotValue g "so2", co := pivotValue g "co",
      pm25_source := strMaxAgg
        ((g.filter (fun h => decide (h.parameter = "pm25"))).filterMap (·.data_source)) })

/-- A row of the `hourly_weather` CTE. -/
structure HWRow where
  timestamp_utc : Timestamp
  location : String
  temperature_c : Option ℚ
  humidity_pct : Option ℚ
  pressure_hpa : Option ℚ
  wind_speed_ms : Option ℚ
  wind_direction_deg : Option ℚ
  precipitation_mm : Option ℚ
  cloud_cover_pct : Option ℚ
  weather_source : Option String
deriving DecidableEq, Repr

def hourlyWeather (wx : List WRow) : List HWRow :=
  let src := wx.filter (fun w => decide (w.location = "Astana"))
  (dedupByFirst id (src.map (fun w => (hourTrunc w.timestamp_utc, w.location)))).map (fun k =>
    let g := src.filter (fun w => decide ((hourTrunc w.timestamp_utc, w.location) = k))
    { timestamp_utc := k.1, location := k.2,
      temperature_c := avgOpt (g.map (·.temperature_c)),
      humidity_pct := avgOpt (g.map (·.humidity_pct)),
      pressure_hpa := avgOpt (g.map (·.surface_pressure_hpa)),
      wind_speed_ms := avgOpt (g.map (·.wind_speed_ms)),
      wind_direction_deg := avgOpt (g.map (·.wind_direction_deg)),
      precipitation_mm := avgOpt (g.map (·.precipitation_mm)),
      cloud_cover_pct := avgOpt (g.map (·.cloud_cover_pct)),
      weather_source := strMaxAgg (g.map (·.data_source)) })

/-- The SQL CASE chain over `EXTRACT(MONTH ...)`. -/
def sqlSeason (m : Nat) : String :=
  if m = 12 ∨ m = 1 ∨ m = 2 then "winter"
  else if m = 3 ∨ m = 4 ∨ m = 5 then "spring"
  else if m = 6 ∨ m = 7 ∨ m = 8 then "summer"
  else "autumn"

/-- One row of the final SELECT of `create_unified_data`: pollutants from
the measurement side, weather from the weather side, temporal features from
the coalesced hour, completeness from the weighted presence sum. -/
def unifiedRow (k : Timestamp × String) (mo : Option PivotRow) (wo : Option HWRow) : URow :=
  { timestamp_utc := k.1, location := k.2,
    pm25 := mo.bind (·.pm25), pm10 := mo.bind (·.pm10), no2 := mo.bind (·.no2),
    o3 := mo.bind (·.o3), so2 := mo.bind (·.so2), co := mo.bind (·.co),
    temperature_c := wo.bind (·.temperature_c), humidity_pct := wo.bind (·.humidity_pct),
    pressure_hpa := wo.bind (·.pressure_hpa), wind_speed_ms := wo.bind (·.wind_speed_ms),
    wind_direction_deg := wo.bind (·.wind_direction_deg),
    precipitation_mm := wo.bind (·.precipitation_mm),
    cloud_cover_pct := wo.bind (·.cloud_cover_pct),
    hour := k.1.hour, day_of_week := pgDow k.1, day_of_month := k.1.day, month := k.1.month,
    season := sqlSeason k.1.month,
    is_weekend := pgDow k.1 == 0 || pgDow k.1 == 6,
    is_heating_season := isHeatingMonth k.1.month,
    pm25_source := mo.bind (·.pm25_source), weather_source := wo.bind (·.weather_source),
    completeness_score := completenessScore (mo.bind (·.pm25)) (wo.bind (·.temperature_c))
      (wo.bind (·.humidity_pct)) (wo.bind (·.wind_speed_ms)) (wo.bind (·.pressure_hpa))
      (mo.bind (·.pm10)) }

def uLe (a b : URow) : Prop := tsLe a.timestamp_utc b.timestamp_utc

instance : DecidableRel uLe := fun a b => by unfold uLe; infer_instance

/-- `create_unified_data`: FULL OUTER JOIN of the pivoted measurements with
the hourly weather on (hour, location), ordered by the coalesced
timestamp. -/
def create_unified_data (meas : List Obs) (wx : List WRow) : List URow :=
  let m := pivotedMeasurements (hourlyMeasurements meas)
  let w := hourlyWeather wx
  let keys := dedupByFirst id
    (m.map (fun x => (x.timestamp_utc, x.location)) ++
     w.map (fun x => (x.timestamp_utc, x.location)))
  List.insertionSort uLe (keys.map (fun k =>
    unifiedRow k (m.find? (fun x => decide ((x.timestamp_utc, x.location) = k)))
                 (w.find? (fun x => decide ((x.timestamp_utc, x.location) = k)))))

/-! ### The full pipeline (normalize_data.py, `main`) -/

/-- The raw source files fed into one pipeline run. -/
structure RawInputs where
  openaq : List Obs
  cams : List CamsRaw
  weather : List WeatherRaw
deriving DecidableEq, Repr

/-- The persistent database state touched by the pipeline. -/
structure DBState where
  measurements : List Obs
  weather : List WRow
  unified : List URow
deriving DecidableEq, Repr

/-- Modelled from the spec: `create_normalized_schema` executes
`scripts/create_normalized_schema.sql`, which is not among the repository
sources here.  Spec §4.6 says full-batch mode "assumes target storage is
empty or is being fully rebuilt from source Observations" and §5 that "the
pipeline must be safe to re-run from scratch", so schema creation is
modelled as resetting the three tables. -/
def create_normalized_schema (_s : DBState) : DBState :=
  { measurements := [], weather := [], unified := [] }

/-- `insert_dataframe`: append rows in bounded chunks; chunk boundaries are
invisible in the final table contents. -/
def insertRows {α : Type} (table : List α) (rows : List α) : List α := table ++ rows

/-- `main`: create the schema, run the three transforms, build the unified
table. -/
def pipelineMain (s : DBState) (raw : RawInputs) : DBState :=
  let s0 := create_normalized_schema s
  let s1 := { s0 with measurements := insertRows s0.measurements (transform_openaq raw.openaq) }
  let s2 := { s1 with measurements := insertRows s1.measurements (transform_cams raw.cams) }
  let s3 := { s2 with weather := insertRows s2.weather (transform_weather raw.weather) }
  { s3 with unified := insertRows s3.unified (create_unified_data s3.measurements s3.weather) }

/-! ### Concrete sample data for witnesses and counterexamples -/

/-- Monday 2024-01-15 05:00 UTC. -/
def ts2024 : Timestamp := ⟨2024, 1, 15, 5, 0, 0⟩

/-- A unified row with every nullable column null. -/
def baseRow : URow :=
  { timestamp_utc := ts2024, location := "Astana",
    pm25 := none, pm10 := none, no2 := none, o3 := none, so2 := none, co := none,
    temperature_c := none, humidity_pct := none, pressure_hpa := none,
    wind_speed_ms := none, wind_direction_deg := none, precipitation_mm := none,
    cloud_cover_pct := none,
    hour := 5, day_of_week := 0, day_of_month := 15, month := 1,
    season := "winter", is_weekend := false, is_heating_season := true,
    pm25_source := none, weather_source := none, completeness_score := 0 }

/-- An empty AQICN reading at a given timestamp. -/
def emptyReading (t : Timestamp) : Reading :=
  { ts := t, pm25 := none, pm10 := none, no2 := none, so2 := none, o3 := none,
    co := none, temp := none, humi := none, wind := none, press := none }

/-- A CAMS temp-table row carrying only pm25 = 15. -/
def c1t : CamsUpdate :=
  { timestamp_utc := ts2024, pm25 := some 15,
    pm10 := none, no2 := none, o3 := none, so2 := none, co := none }

/-- A live-sourced unified row whose stored pm25 is zero. -/
def c1uZero : URow := { baseRow with pm25 := some 0, pm25_source := some "aqicn" }

/-- A reanalysis-sourced unified row. -/
def c1uCams : URow := { baseRow with pm25 := some 4, pm25_source := some "cams" }

/-- A live-sourced unified row with a non-null, non-zero pm25. -/
def c1uLive : URow := { baseRow with pm25 := some 8, pm25_source := some "aqicn" }

/-- A reading supplying only pm25 = 99, at the sample hour. -/
def c1r : Reading := { emptyReading ts2024 with pm25 := some 99 }

/-- A reading at 05:23 of the sample hour. -/
def c4r2 : Reading := emptyReading ⟨2024, 1, 15, 5, 23, 0⟩

/-- A reading at a different hour (06:00). -/
def c5r : Reading := emptyReading ⟨2024, 1, 15, 6, 0, 0⟩

/-- A unified row holding pm10 = 5. -/
def c5u : URow := { baseRow with pm10 := some 5 }

/-- A reading for the sample hour supplying pm25 but not pm10. -/
def c5rM : Reading := { emptyReading ts2024 with pm25 := some 99 }

/-- A reading supplying only pm25 = 7. -/
def c6r : Reading := { emptyReading ts2024 with pm25 := some 7 }

/-- A raw ground-station row with value 1. -/
def c3o1 : Obs :=
  { timestamp_utc := ts2024, location := "st1", latitude := 0, longitude := 0,
    parameter := "pm25", value := some 1, unit := "µg/m³",
    data_source := "raw", data_quality := "" }

/-- The same observation key as `c3o1` but value 2. -/
def c3o2 : Obs := { c3o1 with value := some 2 }

/-- A CAMS grid-point observation in kg/m³. -/
def c9o1 : Obs :=
  { timestamp_utc := ts2024, location := "Astana", latitude := 1, longitude := 2,
    parameter := "pm25", value := some 10, unit := "kg/m³",
    data_source := "cams", data_quality := "reanalysis" }

/-- Same aggregation key as `c9o1` but a DIFFERENT unit and quality tag. -/
def c9o2 : Obs :=
  { c9o1 with latitude := 3, longitude := 4, value := some 30,
              unit := "µg/m³", data_quality := "historical_import" }

/-! ### Theorems for claims C8, C10, C2 -/

/-- C8: `calculate_aqi` maps each concentration inside one of the six EPA
breakpoint bands through the linear interpolation
`index = (index_hi - index_lo) / (conc_hi - conc_lo) * (value - conc_lo) + index_lo`
(rounded to an integer); pm25 = 12.0 gives AQI 50, pm25 = 35.4 gives
AQI 100, pm25 = 0 gives AQI 0, and every pm25 above 500.4 (in particular
600) clamps to AQI 500. -/
theorem c8_aqi_interpolation :
    (∀ v : ℚ, 0 ≤ v → v ≤ 12 →
      calculate_aqi (some v) = some (pyRound (((50 - 0) / (12 - 0)) * (v - 0) + 0))) ∧
    (∀ v : ℚ, 121/10 ≤ v → v ≤ 354/10 →
      calculate_aqi (some v) = some (pyRound (((100 - 51) / (354/10 - 121/10)) * (v - 121/10) + 51))) ∧
    (∀ v : ℚ, 355/10 ≤ v → v ≤ 554/10 →
      calculate_aqi (some v) = some (pyRound (((150 - 101) / (554/10 - 355/10)) * (v - 355/10) + 101))) ∧
    (∀ v : ℚ, 555/10 ≤ v → v ≤ 1504/10 →
      calculate_aqi (some v) = some (pyRound (((200 - 151) / (1504/10 - 555/10)) * (v - 555/10) + 151))) ∧
    (∀ v : ℚ, 1505/10 ≤ v → v ≤ 2504/10 →
      calculate_aqi (some v) = some (pyRound (((300 - 201) / (2504/10 - 1505/10)) * (v - 1505/10) + 201))) ∧
    (∀ v : ℚ, 2505/10 ≤ v → v ≤ 5004/10 →
      calculate_aqi (some v) = some (pyRound (((500 - 301) / (5004/10 - 2505/10)) * (v - 2505/10) + 301))) ∧
    calculate_aqi (some 12) = some 50 ∧
    calculate_aqi (some (354/10)) = some 100 ∧
    calculate_aqi (some 0) = some 0 ∧
    (∀ v : ℚ, 5004/10 < v → calculate_aqi (some v) = some 500) ∧
    calculate_aqi (some 600) = some 500 := by
  refine ⟨?_, ?_, ?_, ?_, ?_, ?_, ?_, ?_, ?_, ?_, ?_⟩
  · intro v h1 h2
    simp only [calculate_aqi, findBand, breakpoints]
    rw [if_pos ⟨h1, h2⟩]
    norm_num [bandIndex]
  · intro v h1 h2
    simp only [calculate_aqi, findBand, breakpoints]
    rw [if_neg (by intro h; linarith [h.2]), if_pos ⟨h1, h2⟩]
    norm_num [bandIndex]
  · intro v h1 h2
    simp only [calculate_aqi, findBand, breakpoints]
    rw [if_neg (by intro h; linarith [h.2]), if_neg (by intro h; linarith [h.2]),
        if_pos ⟨h1, h2⟩]
    norm_num [bandIndex]
  · intro v h1 h2
    simp only [calculate_aqi, findBand, breakpoints]
    rw [if_neg (by intro h; linarith [h.2]), if_neg (by intro h; linarith [h.2]),
        if_neg (by intro h; linarith [h.2]), if_pos ⟨h1, h2⟩]
    norm_num [bandIndex]
  · intro v h1 h2
    simp only [calculate_aqi, findBand, breakpoints]
    rw [if_neg (by intro h; linarith [h.2]), if_neg (by intro h; linarith [h.2]),
        if_neg (by intro h; linarith [h.2]), if_neg (by intro h; linarith [h.2]),
        if_pos ⟨h1, h2⟩]
    norm_num [bandIndex]
  · intro v h1 h2
    simp only [calculate_aqi, findBand, breakpoints]
    rw [if_neg (by intro h; linarith [h.2]), if_neg (by intro h; linarith [h.2]),
        if_neg (by intro h; linarith [h.2]), if_neg (by intro h; linarith [h.2]),
        if_neg (by intro h; linarith [h.2]), if_pos ⟨h1, h2⟩]
    norm_num [bandIndex]
  · have h : calculate_aqi (some 12) = some (bandIndex (0, 12, 0, 50) 12) := by
      simp [calculate_aqi, findBand, breakpoints]
    rw [h]; norm_num [bandIndex, pyRound, ratFloor]
  · have h : calculate_aqi (some (354/10)) = some (bandIndex (121/10, 354/10, 51, 100) (354/10)) := by
      norm_num [calculate_aqi, findBand, breakpoints]
    rw [h]; norm_num [bandIndex, pyRound, ratFloor]
  · have h : calculate_aqi (some 0) = some (bandIndex (0, 12, 0, 50) 0) := by
      simp [calculate_aqi, findBand, breakpoints]
    rw [h]; norm_num [bandIndex, pyRound, ratFloor]
  · intro v hv
    simp only [calculate_aqi, findBand, breakpoints]
    rw [if_neg (by intro h; linarith [h.2]), if_neg (by intro h; linarith [h.2]),
        if_neg (by intro h; linarith [h.2]), if_neg (by intro h; linarith [h.2]),
        if_neg (by intro h; linarith [h.2]), if_neg (by intro h; linarith [h.2]),
        if_pos hv]
  · norm_num [calculate_aqi, findBand, breakpoints]

/-- C8 witness: the band-2 interpolation rule, the clamp rule and the
concrete values, each applied at a concrete input with the hypotheses
discharged there. -/
theorem c8_aqi_interpolation_witness :
    calculate_aqi (some 20) = some (pyRound (((100 - 51) / (354/10 - 121/10)) * (20 - 121/10) + 51)) ∧
    calculate_aqi (some 501) = some 500 := by
  constructor
  · exact c8_aqi_interpolation.2.1 20 (by norm_num) (by norm_num)
  · exact c8_aqi_interpolation.2.2.2.2.2.2.2.2.2.1 501 (by norm_num)

/-- C10: a pm25 value strictly between two consecutive breakpoint bands
matches no band, so `calculate_aqi` falls through to the final
`500 if pm25 > 500.4 else 0` and returns 0, not an interpolated index. -/
theorem c10_aqi_gap_returns_zero :
    ∀ v : ℚ,
      (12 < v ∧ v < 121/10) ∨ (354/10 < v ∧ v < 355/10) ∨
      (554/10 < v ∧ v < 555/10) ∨ (1504/10 < v ∧ v < 1505/10) ∨
      (2504/10 < v ∧ v < 2505/10) →
      calculate_aqi (some v) = some 0 := by
  intro v hv
  rcases hv with ⟨h1, h2⟩ | ⟨h1, h2⟩ | ⟨h1, h2⟩ | ⟨h1, h2⟩ | ⟨h1, h2⟩ <;>
  · simp only [calculate_aqi, findBand, breakpoints]
    rw [if_neg (by intro h; linarith [h.2]), if_neg (by intro h; linarith [h.1, h.2]),
        if_neg (by intro h; linarith [h.1, h.2]), if_neg (by intro h; linarith [h.1, h.2]),
        if_neg (by intro h; linarith [h.1, h.2]), if_neg (by intro h; linarith [h.1, h.2]),
        if_neg (by intro h; linarith)]

/-- C10 witness: the gap rule applied at pm25 = 12.05, inside the first gap. -/
theorem c10_aqi_gap_returns_zero_witness : calculate_aqi (some (241/20)) = some 0 :=
  c10_aqi_gap_returns_zero (241/20) (Or.inl ⟨by norm_num, by norm_num⟩)

/-- C2: in the `param_map` of `reprocess_cams`, every pollutant that lands in
a µg/m³ column carries factor 1e9 and the CO column carries factor 1e6; a
pm25 reading of 1e-8 kg/m³ converts to 10 µg/m³ and a CO reading of
2e-7 kg/m³ converts to 0.2 mg/m³. -/
theorem c2_unit_conversion :
    (∀ c p f, param_map c = some (p, f) →
      ((p = "co" ∧ f = 1000000) ∨ (p ≠ "co" ∧ f = 1000000000))) ∧
    param_map "pm2p5" = some ("pm25", 1000000000) ∧
    param_map "carbon_monoxide" = some ("co", 1000000) ∧
    camsConvert (1/100000000) 1000000000 = 10 ∧
    camsConvert (2/10000000) 1000000 = 1/5 := by
  refine ⟨?_, by decide, by decide, ?_, ?_⟩
  · intro c p f h
    unfold param_map at h
    split_ifs at h
    all_goals
      first
        | exact Option.noConfusion h
        | (simp only [Option.some.injEq, Prod.mk.injEq] at h
           obtain ⟨hp, hf⟩ := h
           subst hp; subst hf
           first
             | exact Or.inl ⟨rfl, rfl⟩
             | exact Or.inr ⟨by decide, rfl⟩)
  · norm_num [camsConvert]
  · norm_num [camsConvert]

/-- C2 witness: the factor rule applied at the concrete map entries for
pm2p5 and carbon_monoxide. -/
theorem c2_unit_conversion_witness :
    (("pm25" : String) = "co" ∧ (1000000000 : ℚ) = 1000000) ∨
      (("pm25" : String) ≠ "co" ∧ (1000000000 : ℚ) = 1000000000) :=
  c2_unit_conversion.1 "pm2p5" "pm25" 1000000000 (by norm_num [param_map])

/-! ### Helper lemmas about the live upsert -/

theorem updateFirstTs_map_ts (r : Reading) (db : List URow) :
    (updateFirstTs r db).map (·.timestamp_utc) = db.map (·.timestamp_utc) := by
  induction db with
  | nil => rfl
  | cons u rest ih =>
    by_cases h : u.timestamp_utc = r.ts
    · simp [updateFirstTs, h, liveUpdateRow]
    · simp [updateFirstTs, h, ih]

theorem updateFirstTs_length (r : Reading) (db : List URow) :
    (updateFirstTs r db).length = db.length := by
  induction db with
  | nil => rfl
  | cons u rest ih =>
    by_cases h : u.timestamp_utc = r.ts
    · simp [updateFirstTs, h]
    · simp [updateFirstTs, h, ih]

theorem mem_updateFirstTs_of_ne (r : Reading) {db : List URow} {v : URow}
    (hv : v ∈ db) (hne : v.timestamp_utc ≠ r.ts) : v ∈ updateFirstTs r db := by
  induction db with
  | nil => cases hv
  | cons u rest ih =>
    rcases List.mem_cons.mp hv with h | h
    · subst h
      rw [updateFirstTs, if_neg hne]
      exact List.mem_cons_self _ _
    · by_cases hu : u.timestamp_utc = r.ts
      · rw [updateFirstTs, if_pos hu]
        exact List.mem_cons_of_mem _ h
      · rw [updateFirstTs, if_neg hu]
        exact List.mem_cons_of_mem _ (ih h)

/-! ### Theorems for claims C1, C4, C5, C6 -/

/-- C1 counterexample: a unified row whose pm25 provenance is the live
source 'aqicn' but whose stored pm25 is 0 is NOT left unchanged by a CAMS
update — the SQL's `u.pm25 = 0` escape hatch overwrites both the value and
the provenance, contradicting the claim's second half. -/
theorem c1_counterexample :
    c1uZero.pm25_source = some "aqicn" ∧ c1uZero.pm25 = some 0 ∧
    (camsMergeRow c1t c1uZero).pm25 = some 15 ∧
    (camsMergeRow c1t c1uZero).pm25_source = some "cams" := by decide

/-- C1 amended: a live-feed update always overwrites pm25 and stamps the
live source 'aqicn' (in particular over a 'cams' provenance); a CAMS update
leaves a live-sourced pm25 and its provenance unchanged PROVIDED the stored
pm25 is neither null nor zero (the SQL overwrites a null or zero pm25
regardless of provenance). -/
theorem c1_amended : ∀ (u : URow) (r : Reading) (t : CamsUpdate),
    (u.pm25_source = some "cams" →
      (liveUpdateRow r u).pm25 = r.pm25 ∧
      (liveUpdateRow r u).pm25_source = some "aqicn") ∧
    (u.pm25_source = some "aqicn" → u.pm25 ≠ none → u.pm25 ≠ some 0 →
      (camsMergeRow t u).pm25 = u.pm25 ∧
      (camsMergeRow t u).pm25_source = u.pm25_source) := by
  intro u r t
  constructor
  · intro _
    exact ⟨rfl, rfl⟩
  · intro hsrc hnn hnz
    have hcond : ¬ (t.pm25 ≠ none ∧
        (u.pm25_source = some "cams" ∨ u.pm25 = none ∨ u.pm25 = some 0)) := by
      rintro ⟨-, h | h | h⟩
      · rw [hsrc] at h
        simp at h
      · exact hnn h
      · exact hnz h
    constructor
    · show (if t.pm25 ≠ none ∧ (u.pm25_source = some "cams" ∨ u.pm25 = none ∨ u.pm25 = some 0)
            then t.pm25 else u.pm25) = u.pm25
      rw [if_neg hcond]
    · show (if t.pm25 ≠ none ∧ (u.pm25_source = some "cams" ∨ u.pm25 = none ∨ u.pm25 = some 0)
            then some "cams" else u.pm25_source) = u.pm25_source
      rw [if_neg hcond]

/-- C1 witness: the overwrite rule at a 'cams'-sourced row and the
keep-rule at a live-sourced row with pm25 = 8. -/
theorem c1_amended_witness :
    ((liveUpdateRow c1r c1uCams).pm25 = c1r.pm25 ∧
      (liveUpdateRow c1r c1uCams).pm25_source = some "aqicn") ∧
    ((camsMergeRow c1t c1uLive).pm25 = c1uLive.pm25 ∧
      (camsMergeRow c1t c1uLive).pm25_source = c1uLive.pm25_source) :=
  ⟨(c1_amended c1uCams c1r c1t).1 rfl,
   (c1_amended c1uLive c1r c1t).2 rfl (by decide) (by decide)⟩

/-- C4 counterexample: starting from an empty table, a live reading at
05:00 inserts a row, and a second live reading at 05:23 of the same hour
does not match it (the existence check compares the exact timestamp, not
the hour truncation) and inserts a second row: two HourlyRecords for one
(hour, location) pair. -/
theorem c4_counterexample :
    (fetchLatestUpsert (fetchLatestUpsert [] (emptyReading ts2024)) c4r2).map hourKey =
      [(ts2024, "Astana"), (ts2024, "Astana")] := by decide

/-- C4 amended: the incremental upsert keys rows by the exact reading
timestamp rather than the hour truncation: it preserves
at-most-one-row-per-exact-timestamp, and when a row with exactly the
reading's timestamp exists it updates in place (same length, same
timestamps) and never duplicates. -/
theorem c4_amended : ∀ (db : List URow) (r : Reading),
    ((db.map (·.timestamp_utc)).Nodup →
      ((fetchLatestUpsert db r).map (·.timestamp_utc)).Nodup) ∧
    ((∃ u ∈ db, u.timestamp_utc = r.ts) →
      (fetchLatestUpsert db r).length = db.length ∧
      (fetchLatestUpsert db r).map (·.timestamp_utc) = db.map (·.timestamp_utc)) := by
  intro db r
  constructor
  · intro hnd
    unfold fetchLatestUpsert
    by_cases hany : db.any (fun u => decide (u.timestamp_utc = r.ts)) = true
    · rw [if_pos hany, updateFirstTs_map_ts]
      exact hnd
    · rw [if_neg hany, List.map_append, List.nodup_append]
      refine ⟨hnd, List.nodup_singleton _, ?_⟩
      intro a ha hb
      simp only [List.map_cons, List.map_nil, List.mem_singleton] at hb
      subst hb
      rcases List.mem_map.mp ha with ⟨u, hu, hts⟩
      exact hany (List.any_eq_true.mpr ⟨u, hu, by simp [hts, liveInsertRow]⟩)
  · rintro ⟨u, hu, hts⟩
    have hany : db.any (fun u => decide (u.timestamp_utc = r.ts)) = true :=
      List.any_eq_true.mpr ⟨u, hu, by simp [hts]⟩
    unfold fetchLatestUpsert
    rw [if_pos hany]
    exact ⟨updateFirstTs_length r db, updateFirstTs_map_ts r db⟩

/-- C4 witness: both halves at a one-row table whose row carries exactly the
reading's timestamp. -/
theorem c4_amended_witness :
    ((fetchLatestUpsert [baseRow] c1r).map (·.timestamp_utc)).Nodup ∧
    (fetchLatestUpsert [baseRow] c1r).length = 1 :=
  ⟨(c4_amended [baseRow] c1r).1 (by decide),
   ((c4_amended [baseRow] c1r).2 ⟨baseRow, List.mem_singleton.mpr rfl, rfl⟩).1⟩

/-- C5 counterexample: updating an existing row from a reading that does
not supply pm10 sets pm10 to null instead of keeping the stored 5 — the
UPDATE statement overwrites every listed column unconditionally. -/
theorem c5_counterexample :
    c5u.pm10 = some 5 ∧ c5rM.pm10 = none ∧
    (fetchLatestUpsert [c5u] c5rM).map (·.pm10) = [none] := by decide

/-- C5 amended: a live update overwrites ALL ten pollutant/weather columns
with the reading's values (nulling every unsupplied field) and stamps both
source columns 'aqicn', leaving the key, temporal and completeness columns
of the row unchanged; rows whose timestamp differs from the reading's are
never touched. -/
theorem c5_amended : ∀ (r : Reading) (db : List URow) (v : URow),
    ((liveUpdateRow r v).pm25 = r.pm25 ∧ (liveUpdateRow r v).pm10 = r.pm10 ∧
     (liveUpdateRow r v).no2 = r.no2 ∧ (liveUpdateRow r v).o3 = r.o3 ∧
     (liveUpdateRow r v).so2 = r.so2 ∧ (liveUpdateRow r v).co = r.co ∧
     (liveUpdateRow r v).temperature_c = r.temp ∧
     (liveUpdateRow r v).humidity_pct = r.humi ∧
     (liveUpdateRow r v).pressure_hpa = r.press ∧
     (liveUpdateRow r v).wind_speed_ms = r.wind ∧
     (liveUpdateRow r v).pm25_source = some "aqicn" ∧
     (liveUpdateRow r v).weather_source = some "aqicn" ∧
     (liveUpdateRow r v).timestamp_utc = v.timestamp_utc ∧
     (liveUpdateRow r v).location = v.location ∧
     (liveUpdateRow r v).completeness_score = v.completeness_score) ∧
    (v ∈ db → v.timestamp_utc ≠ r.ts → v ∈ fetchLatestUpsert db r) := by
  intro r db v
  refine ⟨⟨rfl, rfl, rfl, rfl, rfl, rfl, rfl, rfl, rfl, rfl, rfl, rfl, rfl, rfl, rfl⟩, ?_⟩
  intro hv hne
  unfold fetchLatestUpsert
  by_cases hany : db.any (fun u => decide (u.timestamp_utc = r.ts)) = true
  · rw [if_pos hany]
    exact mem_updateFirstTs_of_ne r hv hne
  · rw [if_neg hany]
    exact List.mem_append_left _ hv

/-- C5 witness: the frame half at a one-row table whose row is at a
different hour than the reading, plus one overwritten field. -/
theorem c5_amended_witness :
    baseRow ∈ fetchLatestUpsert [baseRow] c5r ∧
    (liveUpdateRow c5r baseRow).pm25 = c5r.pm25 :=
  ⟨(c5_amended c5r [baseRow] baseRow).2 (List.mem_singleton.mpr rfl) (by decide),
   (c5_amended c5r [baseRow] baseRow).1.1⟩

/-- C6 counterexample: a reading supplying only pm25 is inserted with
`completeness_score` hard-coded to 1.0, while the weighted presence sum of
the SQL scorer over the same fields is 0.30 — the claim's equality fails. -/
theorem c6_counterexample :
    (liveInsertRow c6r).completeness_score = 1 ∧
    completenessScore (liveInsertRow c6r).pm25 (liveInsertRow c6r).temperature_c
      (liveInsertRow c6r).humidity_pct (liveInsertRow c6r).wind_speed_ms
      (liveInsertRow c6r).pressure_hpa (liveInsertRow c6r).pm10 = 3/10 ∧
    (1 : ℚ) ≠ 3/10 := by
  refine ⟨rfl, ?_, by norm_num⟩
  show completenessScore (some 7) none none none none none = 3/10
  norm_num [completenessScore, round2, ratFloor,
    show Int.fdiv 61 2 = 30 from by decide]

/-! ### Helper lemmas about first-occurrence deduplication -/

theorem mem_of_mem_dedupByFirstAux {α κ : Type} [DecidableEq κ] (key : α → κ) :
    ∀ (seen : List κ) (l : List α) (a : α), a ∈ dedupByFirstAux key seen l → a ∈ l := by
  intro seen l
  induction l generalizing seen with
  | nil => intro a h; cases h
  | cons x rest ih =>
    intro a h
    simp only [dedupByFirstAux] at h
    by_cases hx : key x ∈ seen
    · rw [if_pos hx] at h
      exact List.mem_cons_of_mem _ (ih seen a h)
    · rw [if_neg hx] at h
      rcases List.mem_cons.mp h with h | h
      · exact h ▸ List.mem_cons_self _ _
      · exact List.mem_cons_of_mem _ (ih _ a h)

theorem key_not_seen_of_mem_dedupByFirstAux {α κ : Type} [DecidableEq κ] (key : α → κ) :
    ∀ (seen : List κ) (l : List α) (a : α),
      a ∈ dedupByFirstAux key seen l → key a ∉ seen := by
  intro seen l
  induction l generalizing seen with
  | nil => intro a h; cases h
  | cons x rest ih =>
    intro a h
    simp only [dedupByFirstAux] at h
    by_cases hx : key x ∈ seen
    · rw [if_pos hx] at h
      exact ih seen a h
    · rw [if_neg hx] at h
      rcases List.mem_cons.mp h with h | h
      · exact h ▸ hx
      · intro hs
        exact ih _ a h (List.mem_cons_of_mem _ hs)

theorem nodup_map_key_dedupByFirstAux {α κ : Type} [DecidableEq κ] (key : α → κ) :
    ∀ (seen : List κ) (l : List α), ((dedupByFirstAux key seen l).map key).Nodup := by
  intro seen l
  induction l generalizing seen with
  | nil => exact List.nodup_nil
  | cons x rest ih =>
    simp only [dedupByFirstAux]
    by_cases hx : key x ∈ seen
    · rw [if_pos hx]
      exact ih seen
    · rw [if_neg hx, List.map_cons, List.nodup_cons]
      refine ⟨?_, ih _⟩
      intro hmem
      rcases List.mem_map.mp hmem with ⟨b, hb, hkb⟩
      exact key_not_seen_of_mem_dedupByFirstAux key _ _ _ hb
        (hkb ▸ List.mem_cons_self _ _)

theorem find?_of_mem_dedupByFirstAux {α κ : Type} [DecidableEq κ] (key : α → κ) :
    ∀ (seen : List κ) (l : List α) (a : α), a ∈ dedupByFirstAux key seen l →
      l.find? (fun x => decide (key x = key a)) = some a := by
  intro seen l
  induction l generalizing seen with
  | nil => intro a h; cases h
  | cons x rest ih =>
    intro a h
    simp only [dedupByFirstAux] at h
    by_cases hx : key x ∈ seen
    · rw [if_pos hx] at h
      have hka : key a ∉ seen := key_not_seen_of_mem_dedupByFirstAux key seen rest a h
      have hne : ¬ (decide (key x = key a) = true) := by
        simp only [decide_eq_true_eq]
        intro he
        exact hka (he ▸ hx)
      have hstep : List.find? (fun y => decide (key y = key a)) (x :: rest) =
          List.find? (fun y => decide (key y = key a)) rest :=
        List.find?_cons_of_neg rest hne
      rw [hstep]
      exact ih seen a h
    · rw [if_neg hx] at h
      rcases List.mem_cons.mp h with h | h
      · subst h
        exact List.find?_cons_of_pos rest (by simp)
      · have hka : key a ∉ key x :: seen :=
          key_not_seen_of_mem_dedupByFirstAux key _ rest a h
        have hne : ¬ (decide (key x = key a) = true) := by
          simp only [decide_eq_true_eq]
          intro he
          exact hka (he ▸ List.mem_cons_self _ _)
        have hstep : List.find? (fun y => decide (key y = key a)) (x :: rest) =
            List.find? (fun y => decide (key y = key a)) rest :=
          List.find?_cons_of_neg rest hne
        rw [hstep]
        exact ih _ a h

theorem mem_dedupByFirstAux_id {κ : Type} [DecidableEq κ] :
    ∀ (seen l : List κ) (k : κ), k ∈ l → k ∉ seen → k ∈ dedupByFirstAux id seen l := by
  intro seen l
  induction l generalizing seen with
  | nil => intro k h; cases h
  | cons x rest ih =>
    intro k hk hks
    simp only [dedupByFirstAux, id]
    by_cases hkx : k = x
    · subst hkx
      rw [if_neg hks]
      exact List.mem_cons_self _ _
    · have hkr : k ∈ rest := by
        rcases List.mem_cons.mp hk with h | h
        · exact absurd h hkx
        · exact h
      by_cases hx : x ∈ seen
      · rw [if_pos hx]
        exact ih seen k hkr hks
      · rw [if_neg hx]
        refine List.mem_cons_of_mem _ (ih _ k hkr ?_)
        intro hmem
        rcases List.mem_cons.mp hmem with h | h
        · exact hkx h
        · exact hks h

/-! ### Theorems for claims C3, C9, C7 -/

/-- C3 counterexample: two raw records share the deduplication key (same
timestamp, location, parameter, source) with values 1 and 2; run in one
order the survivor is the value-1 record, run on the reversed input it is
the value-2 record — the result is NOT invariant under reordering of the
raw input, because `drop_duplicates(keep='first')` runs BEFORE
`sort_values`. -/
theorem c3_counterexample :
    obsKey (openaqStandardize c3o1) = obsKey (openaqStandardize c3o2) ∧
    (transform_openaq [c3o1, c3o2]).map (·.value) = [some 1] ∧
    (transform_openaq [c3o2, c3o1]).map (·.value) = [some 2] := by decide

/-- C3 amended: the deduplicated output has at most one Observation per
(timestamp, location, parameter, source) key, and the survivor of each key
is the first-encountered valid record in RAW INPUT order (dedup runs before
the sort by timestamp, which only orders the emitted list), so a reordered
raw input may keep a different survivor. -/
theorem c3_amended : ∀ (rows : List Obs) (o : Obs),
    ((transform_openaq rows).map obsKey).Nodup ∧
    (o ∈ transform_openaq rows →
      ((rows.map openaqStandardize).filter (fun x => validValue x.value)).find?
        (fun x => decide (obsKey x = obsKey o)) = some o) := by
  intro rows o
  have hperm := List.perm_insertionSort obsLe
    (dedupByFirst obsKey ((rows.map openaqStandardize).filter (fun x => validValue x.value)))
  constructor
  · exact ((hperm.map obsKey).nodup_iff).mpr (nodup_map_key_dedupByFirstAux obsKey [] _)
  · intro ho
    exact find?_of_mem_dedupByFirstAux obsKey [] _ o (hperm.mem_iff.mp ho)

/-- C3 witness: the survivor rule at a one-record input. -/
theorem c3_amended_witness :
    ((transform_openaq [c3o1]).map obsKey).Nodup ∧
    (([c3o1].map openaqStandardize).filter (fun x => validValue x.value)).find?
      (fun x => decide (obsKey x = obsKey (openaqStandardize c3o1))) =
      some (openaqStandardize c3o1) :=
  ⟨(c3_amended [c3o1] (openaqStandardize c3o1)).1,
   (c3_amended [c3o1] (openaqStandardize c3o1)).2 (by decide)⟩

/-- C9 counterexample: a group whose two members disagree on `unit` (and on
the quality tag) is NOT dropped: the aggregation emits one averaged record
for it, carrying the FIRST member's unit and quality. -/
theorem c9_counterexample :
    c9o1.unit ≠ c9o2.unit ∧ obsKey c9o1 = obsKey c9o2 ∧
    (camsAggregate [c9o1, c9o2]).length = 1 ∧
    (camsAggregate [c9o1, c9o2]).map (·.unit) = ["kg/m³"] ∧
    (camsAggregate [c9o1, c9o2]).map (·.data_quality) = ["reanalysis"] ∧
    (camsAggregate [c9o1, c9o2]).map (·.value) = [some (ratMean [10, 30])] ∧
    ratMean [10, 30] = 20 := by
  refine ⟨by decide, by decide, by decide, by decide, by decide, rfl, ?_⟩
  norm_num [ratMean]

/-- C9 amended: spatial aggregation never drops a group, uniform or not:
for every key occurring in the input, the output contains exactly one
record with that key, whose value is the arithmetic mean of the group's
values and whose unit and quality are the group's first member's (so
uniform groups do carry them forward unchanged). -/
theorem c9_amended : ∀ (l : List Obs) (k : Timestamp × String × String × String),
    ((camsAggregate l).map obsKey).Nodup ∧
    (k ∈ l.map obsKey →
      ∃ o ∈ camsAggregate l,
        obsKey o = k ∧
        o.value = some (ratMean ((l.filter (fun x => decide (obsKey x = k))).filterMap (·.value))) ∧
        o.unit = (((l.filter (fun x => decide (obsKey x = k))).head?).map (·.unit)).getD "" ∧
        o.data_quality =
          (((l.filter (fun x => decide (obsKey x = k))).head?).map (·.data_quality)).getD "") := by
  intro l k
  constructor
  · show (((dedupByFirst id (l.map obsKey)).map (camsAggBuild l)).map obsKey).Nodup
    rw [List.map_map]
    have hcomp : obsKey ∘ camsAggBuild l = id := by
      funext k
      rfl
    rw [hcomp, List.map_id]
    have hnd := nodup_map_key_dedupByFirstAux
      (id : Timestamp × String × String × String → Timestamp × String × String × String)
      [] (l.map obsKey)
    rw [List.map_id] at hnd
    exact hnd
  · intro hk
    refine ⟨camsAggBuild l k, List.mem_map_of_mem _ (mem_dedupByFirstAux_id [] (l.map obsKey) k hk
      (List.not_mem_nil k)), rfl, rfl, rfl, rfl⟩

/-- C9 witness: the aggregation description at a singleton group. -/
theorem c9_amended_witness :
    ((camsAggregate [c9o1]).map obsKey).Nodup ∧
    ∃ o ∈ camsAggregate [c9o1],
      obsKey o = obsKey c9o1 ∧
      o.value = some (ratMean (([c9o1].filter
        (fun x => decide (obsKey x = obsKey c9o1))).filterMap (·.value))) ∧
      o.unit = ((([c9o1].filter
        (fun x => decide (obsKey x = obsKey c9o1))).head?).map (·.unit)).getD "" ∧
      o.data_quality = ((([c9o1].filter
        (fun x => decide (obsKey x = obsKey c9o1))).head?).map (·.data_quality)).getD "" :=
  ⟨(c9_amended [c9o1] (obsKey c9o1)).1,
   (c9_amended [c9o1] (obsKey c9o1)).2 (by decide)⟩

/-- C7: running the full ETL pipeline twice over the same raw Observation
set yields exactly the same database state — in particular the same set of
HourlyRecords with the same values and completeness scores and no
duplicated rows — because schema creation rebuilds storage from scratch and
every transform is a deterministic function of the raw inputs. -/
theorem c7_pipeline_idempotent : ∀ (s : DBState) (raw : RawInputs),
    pipelineMain (pipelineMain s raw) raw = pipelineMain s raw :=
  fun _ _ => rfl

/-- C6 amended: the insert branch populates exactly the supplied fields
(absent readings stay null, the unqueried weather columns stay null), but
`completeness_score` is always the literal 1.0 regardless of which fields
the reading supplies. -/
theorem c6_amended : ∀ r : Reading,
    (liveInsertRow r).pm25 = r.pm25 ∧ (liveInsertRow r).pm10 = r.pm10 ∧
    (liveInsertRow r).no2 = r.no2 ∧ (liveInsertRow r).o3 = r.o3 ∧
    (liveInsertRow r).so2 = r.so2 ∧ (liveInsertRow r).co = r.co ∧
    (liveInsertRow r).temperature_c = r.temp ∧
    (liveInsertRow r).humidity_pct = r.humi ∧
    (liveInsertRow r).pressure_hpa = r.press ∧
    (liveInsertRow r).wind_speed_ms = r.wind ∧
    (liveInsertRow r).wind_direction_deg = none ∧
    (liveInsertRow r).precipitation_mm = none ∧
    (liveInsertRow r).cloud_cover_pct = none ∧
    (liveInsertRow r).location = "Astana" ∧
    (liveInsertRow r).timestamp_utc = r.ts ∧
    (liveInsertRow r).pm25_source = some "aqicn" ∧
    (liveInsertRow r).weather_source = some "aqicn" ∧
    (liveInsertRow r).completeness_score = 1 :=
  fun _ => ⟨rfl, rfl, rfl, rfl, rfl, rfl, rfl, rfl, rfl, rfl, rfl, rfl, rfl, rfl,
    rfl, rfl, rfl, rfl⟩

end AirQuality
